import Mathlib

/-!
Shallow embedding of the IntelliTrust ledger-anchoring subsystem
(src/backend/app/services/blockchain_service_v2.py, "V2", and
src/backend/app/services/blockchain_service.py, "V1"), together with
theorems settling the frozen claims about it.

Python dictionaries are modelled as association lists with in-place
update semantics (dictInsert replaces the value at an existing key,
keeping its position, and appends otherwise), matching CPython's
insertion-ordered dicts.  Wall-clock time is passed explicitly as a
natural number of seconds.  Python exceptions are modelled with Except;
each raise site gets its own constructor of BCError.  The sha256-based
mock transaction hash and the uuid4 transaction ids are modelled as
explicit deterministic inputs, since no claim depends on their values.
-/

namespace IntelliTrust

/-- Lookup in an association list: first binding wins (a dict has at most
one binding per key, which dictInsert maintains). -/
def dictGet {α : Type} : List (String × α) → String → Option α
  | [], _ => none
  | (k', v) :: t, k => if k' = k then some v else dictGet t k

/-- Python dict assignment d[k] = v: replace in place if the key exists,
otherwise append at the end. -/
def dictInsert {α : Type} : List (String × α) → String → α → List (String × α)
  | [], k, v => [(k, v)]
  | (k', v') :: t, k, v =>
      if k' = k then (k, v) :: t else (k', v') :: dictInsert t k v

theorem dictGet_insert_self {α : Type} (l : List (String × α)) (k : String) (v : α) :
    dictGet (dictInsert l k v) k = some v := by
  induction l with
  | nil => simp [dictInsert, dictGet]
  | cons hd t ih =>
      obtain ⟨k', v'⟩ := hd
      by_cases h : k' = k
      · simp [dictInsert, dictGet, h]
      · simp [dictInsert, dictGet, h, ih]

theorem dictGet_insert_ne {α : Type} (l : List (String × α)) (k k' : String) (v : α)
    (hne : k ≠ k') : dictGet (dictInsert l k v) k' = dictGet l k' := by
  induction l with
  | nil => simp [dictInsert, dictGet, hne]
  | cons hd t ih =>
      obtain ⟨k0, v0⟩ := hd
      by_cases h : k0 = k
      · subst h
        simp [dictInsert, dictGet, hne]
      · simp [dictInsert, dictGet, h, ih]

/-- Exceptions raised by the service.  Each constructor corresponds to one
raise site (the Python code distinguishes them only by message text):
invalidFileHash = "Invalid file hash: must be 64 character hex string",
invalidUserDid = "Invalid user DID: must be at least 10 characters",
metadataTooLarge = "Metadata too large: maximum 10KB",
rateLimitExceeded = "Rate limit exceeded: maximum 10 transactions per minute",
invalidFileHashVerify = the bare "Invalid file hash" raised by
verify_document, anchoringFailed e = the outer wrapper
"Blockchain anchoring failed: ..." around an inner error e,
verificationFailed e = "Document verification failed: ...",
networkStatusFailed m = "Network status check failed: ..." in V2's
get_network_status. -/
inductive BCError : Type where
  | invalidFileHash : BCError
  | invalidUserDid : BCError
  | metadataTooLarge : BCError
  | rateLimitExceeded : BCError
  | invalidFileHashVerify : BCError
  | anchoringFailed : BCError → BCError
  | verificationFailed : BCError → BCError
  | networkStatusFailed : String → BCError
deriving DecidableEq, Repr

/-! ### Retry orchestrator (retry_on_failure, blockchain_service_v2.py lines 40-59)

The decorated call is modelled as a function from the attempt index
(0-based, as in the Python for-loop) to an Except result; the orchestrator
returns the final result paired with the number of attempts actually made.
The exponential-backoff sleep only spends time and is not modelled.
The Python loop: on success return immediately; on failure remember the
exception and, if attempts remain, try again, else re-raise the last
exception. -/

/-- One pass of the retry loop: fuel is the number of retries still allowed
after the current attempt (so the first call gets fuel = max_retries - 1). -/
def retryLoop {ε α : Type} (f : Nat → Except ε α) : Nat → Nat → Except ε α × Nat
  | attempt, fuel =>
      match f attempt with
      | .ok v => (.ok v, attempt + 1)
      | .error e =>
          match fuel with
          | 0 => (.error e, attempt + 1)
          | fuel' + 1 => retryLoop f (attempt + 1) fuel'

/-- retry_on_failure with max_retries attempts (max_retries is at least 1 in
every use; the engine uses 3). -/
def retry_on_failure {ε α : Type} (maxRetries : Nat) (f : Nat → Except ε α) :
    Except ε α × Nat :=
  retryLoop f 0 (maxRetries - 1)

/-! ### Fee estimator (_estimate_gas_optimized, lines 291-308)

The backend estimate is passed as an Except value standing for the
contract_func(*args).estimate_gas() call, which either returns a number of
gas units or raises.  Python's int(estimated_gas * 1.2) is modelled as the
floor of the exact product, estimated * 12 / 10 in natural division. -/

def estimateGasOptimized (backendEstimate : Except String Nat) : Nat :=
  match backendEstimate with
  | .ok estimated =>
      let gasWithBuffer := estimated * 12 / 10
      let minGas := 100000
      let maxGas := 5000000
      max minGas (min gasWithBuffer maxGas)
  | .error _ => 300000

/-! ### V2 engine (blockchain_service_v2.py), mock backend

Metadata is carried as Option String, the string being its JSON
serialization json.dumps(metadata); none models the metadata=None default
(the mock stores metadata or a fresh empty dict, modelled by keeping the
Option).  Timestamps (datetime.utcnow().isoformat() and time.time()) are
a single explicit Nat clock. -/

/-- Character is a hexadecimal digit.  The V2 validator never checks this;
the predicate only serves to state claims about 64-hex digests. -/
def isHexChar (c : Char) : Bool :=
  c.isDigit || (97 ≤ c.toNat && c.toNat ≤ 102) || (65 ≤ c.toNat && c.toNat ≤ 70)

/-- Entry of _mock_documents in V2: user_did, metadata, timestamp, revoked. -/
structure MockDoc where
  user_did : String
  metadata : Option String
  timestamp : Nat
  revoked : Bool
deriving DecidableEq, Repr

/-- Entry of _mock_transactions in V2 (hash is the dict key). -/
structure MockTx where
  block_number : Nat
  gas_used : Nat
  status : Nat
deriving DecidableEq, Repr

/-- Rate limiter state: _rate_limit_counter and _last_rate_limit_reset. -/
structure RateLimiter where
  counter : Nat
  lastReset : Nat
deriving DecidableEq, Repr

/-- Mutable state of one V2 BlockchainService instance (mock backend). -/
structure V2State where
  mock_documents : List (String × MockDoc)
  mock_transactions : List (String × MockTx)
  block_counter : Nat
  rl : RateLimiter
deriving DecidableEq, Repr

/-- Fresh V2 instance: _init_mock_blockchain plus _setup_security at time t0. -/
def initV2 (t0 : Nat) : V2State :=
  { mock_documents := [], mock_transactions := [], block_counter := 0
    rl := { counter := 0, lastReset := t0 } }

/-- The _validate_inputs method (lines 274-289).  An empty file_hash or
user_did is caught by the length tests exactly as the Python "not x"
guards are; the isinstance dict check is enforced by typing; the size
check compares len(json.dumps(metadata)) with 10000 and, like the Python
"if metadata:", is skipped when metadata is absent. -/
def validate_inputs (file_hash user_did : String) (metadata : Option String) :
    Except BCError Unit :=
  if file_hash.length ≠ 64 then .error .invalidFileHash
  else if user_did.length < 10 then .error .invalidUserDid
  else
    match metadata with
    | some m => if m.length > 10000 then .error .metadataTooLarge else .ok ()
    | none => .ok ()

/-- The _check_rate_limit method (lines 538-551) at wall-clock time now,
returning the raised error (if any) and the state as left by the call:
first reset the window if more than 60 seconds passed since the last
reset, then fail if the counter reached 10, else increment. -/
def check_rate_limit (now : Nat) (s : RateLimiter) :
    Option BCError × RateLimiter :=
  let s1 := if now - s.lastReset > 60 then { counter := 0, lastReset := now } else s
  if s1.counter ≥ 10 then (some .rateLimitExceeded, s1)
  else (none, { s1 with counter := s1.counter + 1 })

/-- Stand-in for the sha256 hexdigest of file_hash + user_did + time.time()
used as the mock transaction hash; no claim depends on its value, only on
it being a deterministic function of these inputs. -/
def mockTxHash (fileHash userDid : String) (now : Nat) : String :=
  fileHash ++ "." ++ userDid ++ "." ++ toString now

/-- Return value of a successful anchor (the mock branch's dict literal;
the timestamp field is the now argument, network is "mock"). -/
structure AnchorReceiptV2 where
  transaction_hash : String
  block_number : Nat
  blockchain_hash : String
  status : String
  gas_used : Nat
deriving DecidableEq, Repr

/-- The _anchor_document_mock method (lines 479-518): store the document
under its digest with revoked = false (overwriting any previous record for
that digest), record a mock transaction, bump the block counter and return
a confirmed receipt. -/
def anchor_document_mock (now : Nat) (s : V2State) (file_hash user_did : String)
    (metadata : Option String) : AnchorReceiptV2 × V2State :=
  let txHash := mockTxHash file_hash user_did now
  let doc : MockDoc :=
    { user_did := user_did, metadata := metadata, timestamp := now, revoked := false }
  let tx : MockTx := { block_number := s.block_counter, gas_used := 100000, status := 1 }
  let receipt : AnchorReceiptV2 :=
    { transaction_hash := txHash, block_number := tx.block_number
      blockchain_hash := file_hash, status := "confirmed", gas_used := tx.gas_used }
  (receipt,
   { s with
     mock_documents := dictInsert s.mock_documents file_hash doc
     mock_transactions := dictInsert s.mock_transactions txHash tx
     block_counter := s.block_counter + 1 })

/-- The anchor_document facade (lines 350-371), mock backend: validate,
rate-limit, then the mock anchor; any raised error is re-wrapped by the
outer handler as "Blockchain anchoring failed: ...".  A rejected call
leaves the state unchanged (the rate-limit reset mutation only happens on
a path that then succeeds, so the Except form is exact). -/
def anchor_document (now : Nat) (s : V2State) (file_hash user_did : String)
    (metadata : Option String) : Except BCError (AnchorReceiptV2 × V2State) :=
  match validate_inputs file_hash user_did metadata with
  | .error e => .error (.anchoringFailed e)
  | .ok _ =>
      match check_rate_limit now s.rl with
      | (some e, _) => .error (.anchoringFailed e)
      | (none, rl') =>
          .ok (anchor_document_mock now { s with rl := rl' } file_hash user_did metadata)

/-- Return value of _verify_document_mock: the not-found branch is the
two-field dict with verified = false and an error message; the found
branch carries the stored record's fields (network "mock"). -/
structure VerifyResultV2 where
  verified : Bool
  user_did : Option String
  timestamp : Option Nat
  metadata : Option (Option String)
  revoked : Option Bool
  error : Option String
deriving DecidableEq, Repr

/-- The _verify_document_mock method (lines 647-669). -/
def verify_document_mock (s : V2State) (file_hash : String) : VerifyResultV2 :=
  match dictGet s.mock_documents file_hash with
  | none =>
      { verified := false, user_did := none, timestamp := none, metadata := none
        revoked := none, error := some "Document not found on blockchain" }
  | some doc =>
      { verified := true, user_did := some doc.user_did, timestamp := some doc.timestamp
        metadata := some doc.metadata, revoked := some doc.revoked, error := none }

/-- The verify_document facade (lines 554-573), mock backend: its own
digest-length guard, then the mock lookup; errors are re-wrapped as
"Document verification failed: ...". -/
def verify_document (s : V2State) (file_hash : String) :
    Except BCError VerifyResultV2 :=
  if file_hash.length ≠ 64 then .error (.verificationFailed .invalidFileHashVerify)
  else .ok (verify_document_mock s file_hash)

/-! ### V1 engine (blockchain_service.py), mock backend

The str(uuid.uuid4()) transaction id is an explicit input of each mutating
operation; isoformat timestamps are the explicit Nat clock.  The
fabric/ethereum/polygon branches of every V1 operation delegate to the
mock implementation (directly or as the fallback of their own handlers),
so the mock is the single modelled backend.  The sha256 hash-chain fields
of mock blocks (previous_hash, hash) are json+sha256 digests no claim
depends on and are not modelled. -/

/-- Entry of V1's _mock_documents: written by _anchor_document_mock as
a fresh three-field dict, mutated in place by _revoke_document_mock which
adds status = "revoked", revoked_at and revocation_reason. -/
structure DocV1 where
  transaction_id : String
  anchored_at : Nat
  status : String
  revoked_at : Option Nat
  revocation_reason : Option String
deriving DecidableEq, Repr

/-- Entry of V1's _mock_transactions (transaction_id is also the dict key);
metadata is present on anchor transactions, reason on revoke transactions. -/
structure TxV1 where
  transaction_id : String
  file_hash : String
  user_did : String
  timestamp : Nat
  metadata : Option (Option String)
  reason : Option String
  operation : String
  block_number : Nat
deriving DecidableEq, Repr

/-- Entry of V1's _mock_blocks (without the unmodelled sha256 chain). -/
structure BlockV1 where
  block_number : Nat
  timestamp : Nat
  transactions : List String
deriving DecidableEq, Repr

/-- Mutable state of one V1 BlockchainService instance (mock backend). -/
structure V1State where
  mock_transactions : List (String × TxV1)
  mock_documents : List (String × DocV1)
  mock_blocks : List BlockV1
  block_counter : Nat
deriving DecidableEq, Repr

/-- Fresh V1 instance (_init_mock_blockchain). -/
def initV1 : V1State :=
  { mock_transactions := [], mock_documents := [], mock_blocks := [], block_counter := 0 }

/-- Receipt returned by V1's mutating operations: anchor returns
status "confirmed" with blockchain_hash, revoke returns status "revoked"
without it. -/
structure ReceiptV1 where
  transaction_hash : String
  block_number : Nat
  blockchain_hash : Option String
  status : String
  timestamp : Nat
deriving DecidableEq, Repr

/-- The _anchor_document_mock method (blockchain_service.py lines 154-202):
store the transaction, overwrite the digest's document entry with a fresh
confirmed record, append a block, bump the counter.  The facade
anchor_document only dispatches to it, so it is also the modelled facade
behavior. -/
def anchor_document_mock_v1 (txid : String) (now : Nat) (s : V1State)
    (file_hash user_did : String) (metadata : Option String) : ReceiptV1 × V1State :=
  let tx : TxV1 :=
    { transaction_id := txid, file_hash := file_hash, user_did := user_did
      timestamp := now, metadata := some metadata, reason := none
      operation := "anchor_document", block_number := s.block_counter + 1 }
  let doc : DocV1 :=
    { transaction_id := txid, anchored_at := now, status := "confirmed"
      revoked_at := none, revocation_reason := none }
  let blk : BlockV1 :=
    { block_number := s.block_counter + 1, timestamp := now, transactions := [txid] }
  let receipt : ReceiptV1 :=
    { transaction_hash := txid, block_number := blk.block_number
      blockchain_hash := some file_hash, status := "confirmed", timestamp := now }
  (receipt,
   { mock_transactions := dictInsert s.mock_transactions txid tx
     mock_documents := dictInsert s.mock_documents file_hash doc
     mock_blocks := s.mock_blocks ++ [blk]
     block_counter := s.block_counter + 1 })

/-- The _revoke_document_mock method (blockchain_service.py lines 483-531):
always record a revocation transaction and block and return a "revoked"
receipt; only when the digest already has a document entry is that entry's
status switched to "revoked" (in place, keeping transaction_id and
anchored_at).  There is no not-anchored check and no failure path. -/
def revoke_document_mock_v1 (txid : String) (now : Nat) (s : V1State)
    (file_hash user_did reason : String) : ReceiptV1 × V1State :=
  let tx : TxV1 :=
    { transaction_id := txid, file_hash := file_hash, user_did := user_did
      timestamp := now, metadata := none, reason := some reason
      operation := "revoke_document", block_number := s.block_counter + 1 }
  let docs :=
    match dictGet s.mock_documents file_hash with
    | some doc =>
        dictInsert s.mock_documents file_hash
          { doc with status := "revoked", revoked_at := some now
                     revocation_reason := some reason }
    | none => s.mock_documents
  let blk : BlockV1 :=
    { block_number := s.block_counter + 1, timestamp := now, transactions := [txid] }
  let receipt : ReceiptV1 :=
    { transaction_hash := txid, block_number := blk.block_number
      blockchain_hash := none, status := "revoked", timestamp := now }
  (receipt,
   { mock_transactions := dictInsert s.mock_transactions txid tx
     mock_documents := docs
     mock_blocks := s.mock_blocks ++ [blk]
     block_counter := s.block_counter + 1 })

/-- The revoke_document facade (blockchain_service.py lines 442-457): every
branch reaches the mock implementation, which cannot fail, so the outer
handler's re-raise path is dead and the facade equals the mock. -/
def revoke_document (txid : String) (now : Nat) (s : V1State)
    (file_hash user_did reason : String) : ReceiptV1 × V1State :=
  revoke_document_mock_v1 txid now s file_hash user_did reason

/-- Result of V1's _verify_document_mock: it reports the anchoring
transaction's data and has no revoked field at all. -/
structure VerifyResultV1 where
  verified : Bool
  block_number : Option Nat
  transaction_hash : Option String
  timestamp : Option Nat
  user_did : Option String
  metadata : Option (Option (Option String))
  error : Option String
deriving DecidableEq, Repr

/-- The _verify_document_mock method (blockchain_service.py lines 250-278):
look up the document entry, then its transaction; report that
transaction's fields, or verified = false when either is missing. -/
def verify_document_mock_v1 (s : V1State) (file_hash : String) : VerifyResultV1 :=
  match dictGet s.mock_documents file_hash with
  | some doc =>
      match dictGet s.mock_transactions doc.transaction_id with
      | some tx =>
          { verified := true, block_number := some tx.block_number
            transaction_hash := some doc.transaction_id, timestamp := some tx.timestamp
            user_did := some tx.user_did, metadata := some tx.metadata, error := none }
      | none =>
          { verified := false, block_number := none, transaction_hash := none
            timestamp := none, user_did := none, metadata := none
            error := some "Document not found on blockchain" }
  | none =>
      { verified := false, block_number := none, transaction_hash := none
        timestamp := none, user_did := none, metadata := none
        error := some "Document not found on blockchain" }

/-- One history entry as built by _get_document_history_mock. -/
structure HistEntryV1 where
  transaction_id : String
  operation : String
  timestamp : Nat
  block_number : Nat
  user_did : String
  metadata : Option (Option String)
deriving DecidableEq, Repr

/-- Stable insertion into a timestamp-sorted list: the new entry goes after
all existing entries with a less-or-equal timestamp, matching the
stability of Python's list.sort. -/
def insertByTimestamp (e : HistEntryV1) : List HistEntryV1 → List HistEntryV1
  | [] => [e]
  | x :: t =>
      if x.timestamp ≤ e.timestamp then x :: insertByTimestamp e t
      else e :: x :: t

/-- history.sort with the timestamp key (stable). -/
def sortByTimestamp (l : List HistEntryV1) : List HistEntryV1 :=
  l.foldl (fun acc e => insertByTimestamp e acc) []

/-- The _get_document_history_mock method (blockchain_service.py lines
417-440): collect every stored transaction whose file_hash matches, in
dict (insertion) order, then sort by timestamp. -/
def get_document_history_mock (s : V1State) (file_hash : String) : List HistEntryV1 :=
  sortByTimestamp
    ((s.mock_transactions.filter (fun p => p.2.file_hash = file_hash)).map
      (fun p =>
        { transaction_id := p.1, operation := p.2.operation
          timestamp := p.2.timestamp, block_number := p.2.block_number
          user_did := p.2.user_did, metadata := p.2.metadata }))

/-- The get_document_history facade (blockchain_service.py lines 376-391):
every branch reaches the total mock implementation, and the outer handler
turns any escaped exception into the empty list (a dead arm here since the
dispatched computation always succeeds). -/
def get_document_history (s : V1State) (file_hash : String) : List HistEntryV1 :=
  let dispatched : Except String (List HistEntryV1) :=
    .ok (get_document_history_mock s file_hash)
  match dispatched with
  | .ok l => l
  | .error _ => []

/-- One public mutating-or-querying operation of the V1 engine, with its
nondeterministic inputs (uuid, clock) made explicit. -/
inductive OpV1 : Type where
  | anchorOp (txid : String) (now : Nat) (file_hash user_did : String)
      (metadata : Option String) : OpV1
  | revokeOp (txid : String) (now : Nat) (file_hash user_did reason : String) : OpV1
  | verifyOp (file_hash : String) : OpV1
  | historyOp (file_hash : String) : OpV1
deriving DecidableEq, Repr

/-- State transition of one V1 engine call (verify and history are read-only). -/
def stepV1 (s : V1State) : OpV1 → V1State
  | .anchorOp txid now h u m => (anchor_document_mock_v1 txid now s h u m).2
  | .revokeOp txid now h u r => (revoke_document_mock_v1 txid now s h u r).2
  | .verifyOp _ => s
  | .historyOp _ => s

/-- Whether an operation is an anchor of the given digest. -/
def isAnchorOf (d : String) : OpV1 → Bool
  | .anchorOp _ _ h _ _ => h = d
  | _ => false

/-! ### Network status (V2 lines 671-744, V1 lines 280-375)

The live-chain queries (web3 block number / gas price in V2, the JSON-RPC
eth_blockNumber POST in V1) are passed in as Except values standing for
the calls that either return data or raise; in V1 they are Option-wrapped
because the branch first tests whether an RPC URL is configured. -/

/-- Barely structured health snapshot: the dict returned by the status
methods, keeping the fields the claims mention. -/
structure StatusSnapshot where
  status : String
  network : String
  error : Option String
  latest_block : Option Nat
deriving DecidableEq, Repr

/-- Active backend of a V2 instance. -/
inductive BlockchainTypeV2 : Type where
  | ethereum : BlockchainTypeV2
  | polygon : BlockchainTypeV2
  | mock : BlockchainTypeV2
deriving DecidableEq, Repr

/-- V2's _get_ethereum_status / _get_polygon_status: both query the chain
inside their own try and on any exception return a snapshot with status
"error" carrying the stringified exception. -/
def get_chain_status_v2 (network : String) (query : Except String Nat) :
    StatusSnapshot :=
  match query with
  | .ok latestBlock =>
      { status := "connected", network := network, error := none
        latest_block := some latestBlock }
  | .error e =>
      { status := "error", network := network, error := some e, latest_block := none }

/-- V2's _get_mock_status: unconditionally connected. -/
def get_mock_status_v2 (s : V2State) : StatusSnapshot :=
  { status := "connected", network := "mock", error := none
    latest_block := some s.block_counter }

/-- V2's get_network_status (lines 671-683): dispatch on the backend; the
outer handler re-raises escaped exceptions as BlockchainError, but every
branch handles its own failures, so the dispatched computation always
succeeds and the error arm is dead. -/
def get_network_status_v2 (bt : BlockchainTypeV2) (ethQuery polyQuery : Except String Nat)
    (s : V2State) : Except BCError StatusSnapshot :=
  let dispatched : Except String StatusSnapshot :=
    match bt with
    | .ethereum => .ok (get_chain_status_v2 "ethereum" ethQuery)
    | .polygon => .ok (get_chain_status_v2 "polygon" polyQuery)
    | .mock => .ok (get_mock_status_v2 s)
  match dispatched with
  | .ok snap => .ok snap
  | .error e => .error (.networkStatusFailed e)

/-- Active backend of a V1 instance. -/
inductive BlockchainTypeV1 : Type where
  | hyperledgerFabric : BlockchainTypeV1
  | ethereum : BlockchainTypeV1
  | polygon : BlockchainTypeV1
  | mock : BlockchainTypeV1
deriving DecidableEq, Repr

/-- V1's _get_network_status_mock: an "online" snapshot of the in-memory
ledger (its own handler's offline arm is dead: the body cannot fail). -/
def get_network_status_mock_v1 (s : V1State) : StatusSnapshot :=
  { status := "online", network := "mock", error := none
    latest_block := some s.block_counter }

/-- V1's _get_network_status_ethereum (and _polygon, identical shape): with
a configured RPC URL and a successful eth_blockNumber query, report
"online"; with no URL, a failed query (exception caught) or a non-200
response, fall back to the MOCK status snapshot, dropping the error. -/
def get_network_status_chain_v1 (rpcQuery : Option (Except String Nat))
    (s : V1State) (network : String) : StatusSnapshot :=
  match rpcQuery with
  | some (.ok latestBlock) =>
      { status := "online", network := network, error := none
        latest_block := some latestBlock }
  | some (.error _) => get_network_status_mock_v1 s
  | none => get_network_status_mock_v1 s

/-- V1's get_network_status (lines 280-298): dispatch on the backend
(fabric delegates to mock); the outer handler returns an "offline"
snapshot carrying the error instead of raising, though every branch is
total so that arm is dead. -/
def get_network_status_v1 (bt : BlockchainTypeV1)
    (ethQuery polyQuery : Option (Except String Nat)) (s : V1State) : StatusSnapshot :=
  let dispatched : Except String StatusSnapshot :=
    match bt with
    | .hyperledgerFabric => .ok (get_network_status_mock_v1 s)
    | .ethereum => .ok (get_network_status_chain_v1 ethQuery s "ethereum")
    | .polygon => .ok (get_network_status_chain_v1 polyQuery s "polygon")
    | .mock => .ok (get_network_status_mock_v1 s)
  match dispatched with
  | .ok snap => snap
  | .error e => { status := "offline", network := "", error := some e, latest_block := none }

/-! ### Concrete digests used by several concrete statements -/

/-- A 64-character all-hex digest. -/
def digestA : String :=
  "aaaaaaaaaaaaaaaaaaaaaaaaaaaaaaaaaaaaaaaaaaaaaaaaaaaaaaaaaaaaaaaa"

/-- A 64-character digest containing only the non-hex letter z. -/
def digestZ : String :=
  "zzzzzzzzzzzzzzzzzzzzzzzzzzzzzzzzzzzzzzzzzzzzzzzzzzzzzzzzzzzzzzzz"

/-! ### Retry helper lemmas -/

theorem retryLoop_ok {ε α : Type} (f : Nat → Except ε α) (v : α) (fuel attempt : Nat)
    (h : f attempt = .ok v) : retryLoop f attempt fuel = (.ok v, attempt + 1) := by
  cases fuel <;> simp [retryLoop, h]

theorem retryLoop_all_error {ε α : Type} (f : Nat → Except ε α) (e : Nat → ε) :
    ∀ (fuel attempt : Nat),
      (∀ i, attempt ≤ i → i ≤ attempt + fuel → f i = .error (e i)) →
      retryLoop f attempt fuel = (.error (e (attempt + fuel)), attempt + fuel + 1) := by
  intro fuel
  induction fuel with
  | zero =>
      intro attempt h
      simp [retryLoop, h attempt le_rfl (by omega)]
  | succ n ih =>
      intro attempt h
      have h0 : f attempt = .error (e attempt) := h attempt le_rfl (by omega)
      have ih' := ih (attempt + 1) (fun i h1 h2 => h i (by omega) (by omega))
      have harith : attempt + 1 + n = attempt + (n + 1) := by omega
      rw [harith] at ih'
      simp [retryLoop, h0, ih']

/-- C5. The claim says the retry orchestrator surfaces validation errors and
business rejections (RateLimitExceeded, InvalidDigest) after a single
attempt and retries only transient failures.  The code retries every
exception indiscriminately: a call failing with the validation error
invalidFileHash, or with rateLimitExceeded, is attempted 3 times, not 1 —
in particular the decorated anchor_document with a malformed digest is
attempted 3 times.  This closed computation refutes the claim. -/
theorem retry_not_immediate_on_validation_error :
    retry_on_failure 3
        (fun _ => (.error .invalidFileHash : Except BCError Unit)) =
      (.error .invalidFileHash, 3) ∧
    retry_on_failure 3
        (fun _ => (.error .rateLimitExceeded : Except BCError Unit)) =
      (.error .rateLimitExceeded, 3) ∧
    (retry_on_failure 3 (fun _ => anchor_document 0 (initV2 0) "short" "user123456" none)).2
      = 3 ∧
    (3 : Nat) ≠ 1 := by
  refine ⟨?_, ?_, ?_, by decide⟩ <;> rfl

/-- C5 (amended). The retry orchestrator applies one policy to every
failure category: any call whose attempts all fail — with any errors,
validation errors and business rejections included — is attempted the full
3 times, and the error of the final attempt is surfaced unchanged. -/
theorem retry_retries_every_error_category {ε α : Type} (f : Nat → Except ε α)
    (e : Nat → ε) (h : ∀ i, i < 3 → f i = .error (e i)) :
    retry_on_failure 3 f = (.error (e 2), 3) := by
  have := retryLoop_all_error f e 2 0 (fun i h1 h2 => h i (by omega))
  simpa [retry_on_failure] using this

/-- C5 (amended) witnessed at a concrete constantly-failing call. -/
theorem retry_retries_every_error_category_witness :
    retry_on_failure 3 (fun _ => (.error .invalidFileHash : Except BCError Unit)) =
      (.error .invalidFileHash, 3) :=
  retry_retries_every_error_category
    (fun _ => (.error .invalidFileHash : Except BCError Unit))
    (fun _ => .invalidFileHash) (fun _ _ => rfl)

/-- C6. Under the default 3-attempt policy: a call failing on the first two
attempts and succeeding on the third yields that success with attempt
count 3; a call failing on all 3 attempts surfaces the last attempt's
error unchanged, with attempt count 3 (for a call failing identically each
time this is the original error). -/
theorem retry_third_attempt_success_and_exhaustion {ε α : Type}
    (f g : Nat → Except ε α) (v : α) (e0 e1 : ε) (e : Nat → ε)
    (hf0 : f 0 = .error e0) (hf1 : f 1 = .error e1) (hf2 : f 2 = .ok v)
    (hg : ∀ i, i < 3 → g i = .error (e i)) :
    retry_on_failure 3 f = (.ok v, 3) ∧
    retry_on_failure 3 g = (.error (e 2), 3) := by
  constructor
  · simp [retry_on_failure, retryLoop, hf0, hf1, hf2]
  · have := retryLoop_all_error g e 2 0 (fun i h1 h2 => hg i (by omega))
    simpa [retry_on_failure] using this

/-- C6 witnessed at concrete calls: one that fails twice then returns 7,
and one that fails with rateLimitExceeded on all three attempts. -/
theorem retry_third_attempt_success_and_exhaustion_witness :
    retry_on_failure 3
        (fun i => if i < 2 then (.error BCError.invalidFileHash : Except BCError Nat)
                  else .ok 7) = (.ok 7, 3) ∧
    retry_on_failure 3 (fun _ => (.error .rateLimitExceeded : Except BCError Nat)) =
      (.error .rateLimitExceeded, 3) :=
  retry_third_attempt_success_and_exhaustion _ _ 7 .invalidFileHash .invalidFileHash
    (fun _ => .rateLimitExceeded) rfl rfl rfl (fun _ _ => rfl)

/-- C8. Gas estimation applies the +20 percent buffer to the backend
estimate and clamps: a buffered estimate above 5,000,000 yields exactly
5,000,000, one below 100,000 yields exactly 100,000, one inside the range
is returned as is, and an estimation failure yields the fixed fallback
300,000. -/
theorem gas_estimation_buffer_clamp_fallback (eHigh eLow eMid : Nat) (err : String)
    (hH : 5000000 < eHigh * 12 / 10)
    (hL : eLow * 12 / 10 < 100000)
    (hM1 : 100000 ≤ eMid * 12 / 10) (hM2 : eMid * 12 / 10 ≤ 5000000) :
    estimateGasOptimized (.ok eHigh) = 5000000 ∧
    estimateGasOptimized (.ok eLow) = 100000 ∧
    estimateGasOptimized (.ok eMid) = eMid * 12 / 10 ∧
    estimateGasOptimized (.error err) = 300000 := by
  refine ⟨?_, ?_, ?_, rfl⟩ <;> simp [estimateGasOptimized] <;> omega

/-- C8 witnessed at a 10,000,000-unit estimate (buffers to 12,000,000,
clamps to the max), a zero estimate (clamps to the min), a 1,000,000-unit
estimate (buffered value 1,200,000 kept as is) and a failing estimator. -/
theorem gas_estimation_buffer_clamp_fallback_witness :
    estimateGasOptimized (.ok 10000000) = 5000000 ∧
    estimateGasOptimized (.ok 0) = 100000 ∧
    estimateGasOptimized (.ok 1000000) = 1000000 * 12 / 10 ∧
    estimateGasOptimized (.error "rpc unreachable") = 300000 :=
  gas_estimation_buffer_clamp_fallback 10000000 0 1000000 "rpc unreachable"
    (by norm_num) (by norm_num) (by norm_num) (by norm_num)

/-! ### Rate limiter (claim C7) -/

/-- Successive _check_rate_limit calls at the given times, collecting each
call's raised error (none = the call proceeded) and threading the state. -/
def runRL : List Nat → RateLimiter → List (Option BCError) × RateLimiter
  | [], s => ([], s)
  | t :: ts, s =>
      let step := check_rate_limit t s
      let rest := runRL ts step.2
      (step.1 :: rest.1, rest.2)

theorem check_rate_limit_in_window (now : Nat) (s : RateLimiter)
    (hw : now - s.lastReset ≤ 60) (hc : s.counter < 10) :
    check_rate_limit now s = (none, { counter := s.counter + 1, lastReset := s.lastReset }) := by
  have h1 : ¬ now - s.lastReset > 60 := by omega
  have h2 : ¬ s.counter ≥ 10 := by omega
  simp [check_rate_limit, h1, h2]

theorem runRL_in_window (c : Nat) :
    ∀ (ts : List Nat) (t0 : Nat),
      (∀ t ∈ ts, t - t0 ≤ 60) → c + ts.length ≤ 10 →
      runRL ts { counter := c, lastReset := t0 } =
        (List.replicate ts.length none, { counter := c + ts.length, lastReset := t0 }) := by
  intro ts
  induction ts generalizing c with
  | nil => intro t0 _ _; simp [runRL]
  | cons t ts ih =>
      intro t0 hw hc
      have hstep := check_rate_limit_in_window t { counter := c, lastReset := t0 }
        (hw t (List.mem_cons_self t ts)) (by simp at hc ⊢; omega)
      have ihs := ih (c + 1) t0 (fun x hx => hw x (List.mem_cons_of_mem t hx))
        (by simp at hc ⊢; omega)
      simp only [runRL, hstep, ihs, List.replicate, List.length_cons]
      have harith : c + 1 + ts.length = c + (ts.length + 1) := by omega
      rw [harith]

/-- C7. With the fixed 60-second window and cap 10 of _check_rate_limit
(one counter per engine instance, consulted by anchor_document before any
backend dispatch): starting from a freshly reset window at time t0, each
of 10 calls at times within 60 seconds of t0 proceeds and increments the
counter (reaching 10); an 11th call still within the window fails with
rateLimitExceeded and leaves the counter untouched; a call at a time more
than 60 seconds after t0 resets the window and proceeds, and a whole
anchor_document call with well-formed inputs but an exhausted in-window
counter fails with the rate-limit error wrapped by the anchoring handler. -/
theorem rate_limit_window_cap (t0 : Nat) (ts : List Nat) (t11 tLate now : Nat)
    (s : V2State) (h u : String) (m : Option String)
    (hlen : ts.length = 10) (hin : ∀ t ∈ ts, t - t0 ≤ 60)
    (h11 : t11 - t0 ≤ 60) (hlate : 60 < tLate - t0)
    (hh : h.length = 64) (hu : 10 ≤ u.length)
    (hmeta : ∀ ms, m = some ms → ms.length ≤ 10000)
    (hs : s.rl = { counter := 10, lastReset := t0 }) (hnow : now - t0 ≤ 60) :
    runRL ts { counter := 0, lastReset := t0 } =
      (List.replicate 10 none, { counter := 10, lastReset := t0 }) ∧
    check_rate_limit t11 { counter := 10, lastReset := t0 } =
      (some .rateLimitExceeded, { counter := 10, lastReset := t0 }) ∧
    check_rate_limit tLate { counter := 10, lastReset := t0 } =
      (none, { counter := 1, lastReset := tLate }) ∧
    anchor_document now s h u m = .error (.anchoringFailed .rateLimitExceeded) := by
  refine ⟨?_, ?_, ?_, ?_⟩
  · have := runRL_in_window 0 ts t0 hin (by omega)
    simpa [hlen] using this
  · have h1 : ¬ t11 - t0 > 60 := by omega
    simp [check_rate_limit, h1]
  · have h1 : tLate - t0 > 60 := hlate
    simp [check_rate_limit, h1]
  · have hv : validate_inputs h u m = .ok () := by
      unfold validate_inputs
      rw [if_neg (by omega)]
      rw [if_neg (by omega)]
      cases m with
      | none => rfl
      | some ms => simp [Nat.not_lt.mpr (hmeta ms rfl)]
    have hrl : check_rate_limit now s.rl =
        (some .rateLimitExceeded, { counter := 10, lastReset := t0 }) := by
      rw [hs]
      have h1 : ¬ now - t0 > 60 := by omega
      simp [check_rate_limit, h1]
    simp [anchor_document, hv, hrl]

/-- C7 witnessed with ten calls at second 0, an 11th at second 30, a reset
call at second 61, and a concrete rate-limited anchor_document call. -/
theorem rate_limit_window_cap_witness :
    runRL (List.replicate 10 0) { counter := 0, lastReset := 0 } =
      (List.replicate 10 none, { counter := 10, lastReset := 0 }) ∧
    check_rate_limit 30 { counter := 10, lastReset := 0 } =
      (some .rateLimitExceeded, { counter := 10, lastReset := 0 }) ∧
    check_rate_limit 61 { counter := 10, lastReset := 0 } =
      (none, { counter := 1, lastReset := 61 }) ∧
    anchor_document 30
        { mock_documents := [], mock_transactions := [], block_counter := 0
          rl := { counter := 10, lastReset := 0 } }
        digestA "user123456" none = .error (.anchoringFailed .rateLimitExceeded) :=
  rate_limit_window_cap 0 (List.replicate 10 0) 30 61 30
    { mock_documents := [], mock_transactions := [], block_counter := 0
      rl := { counter := 10, lastReset := 0 } }
    digestA "user123456" none
    (by decide) (by decide) (by decide) (by decide) (by decide) (by decide)
    (fun _ h => by cases h) rfl (by decide)

/-! ### Validation, anchor and verify (claims C1, C2) -/

theorem validate_inputs_ok (h u : String) (m : Option String)
    (hh : h.length = 64) (hu : 10 ≤ u.length)
    (hm : ∀ ms, m = some ms → ms.length ≤ 10000) :
    validate_inputs h u m = .ok () := by
  unfold validate_inputs
  rw [if_neg (by omega)]
  rw [if_neg (by omega)]
  cases m with
  | none => rfl
  | some ms => simp [Nat.not_lt.mpr (hm ms rfl)]

/-- C1 (counterexample). The claim quantifies over every non-empty owner
identifier, but the validator requires at least 10 characters: with the
valid 64-hex digest digestA and the non-empty owner "x", anchor_document
is rejected with the invalid-DID validation error and a subsequent verify
still reports the document as not found, so no verified record matching
the anchored values is returned. -/
theorem anchor_with_short_nonempty_owner_fails :
    digestA.length = 64 ∧ digestA.data.all isHexChar = true ∧ "x" ≠ "" ∧
    anchor_document 0 (initV2 0) digestA "x" none =
      .error (.anchoringFailed .invalidUserDid) ∧
    verify_document (initV2 0) digestA =
      .ok { verified := false, user_did := none, timestamp := none, metadata := none
            revoked := none, error := some "Document not found on blockchain" } := by
  refine ⟨rfl, by decide, by decide, rfl, rfl⟩

/-- C1 (amended). For every digest of exactly 64 characters (in particular
every 64-hex digest), every owner identifier of at least 10 characters,
and metadata within the 10KB bound, an anchor_document call that passes
the rate limiter succeeds with a confirmed receipt for that digest, and
verify_document on the resulting state returns a verified record whose
owner matches the anchored value, whose stored data is the anchored
metadata and timestamp, and whose revoked flag is false. -/
theorem anchor_then_verify_matches (now : Nat) (s : V2State) (h u : String)
    (m : Option String) (hh : h.length = 64) (hu : 10 ≤ u.length)
    (hm : ∀ ms, m = some ms → ms.length ≤ 10000)
    (hrl : (check_rate_limit now s.rl).1 = none) :
    ∃ receipt s',
      anchor_document now s h u m = .ok (receipt, s') ∧
      receipt.blockchain_hash = h ∧ receipt.status = "confirmed" ∧
      verify_document s' h =
        .ok { verified := true, user_did := some u, timestamp := some now
              metadata := some m, revoked := some false, error := none } := by
  have hv := validate_inputs_ok h u m hh hu hm
  rcases hcr : check_rate_limit now s.rl with ⟨o, rl'⟩
  rw [hcr] at hrl
  simp only at hrl
  subst hrl
  refine ⟨(anchor_document_mock now { s with rl := rl' } h u m).1,
          (anchor_document_mock now { s with rl := rl' } h u m).2, ?_, rfl, rfl, ?_⟩
  · simp [anchor_document, hv, hcr]
  · simp [verify_document, hh, verify_document_mock, anchor_document_mock,
      dictGet_insert_self]

/-- C1 (amended) witnessed at a fresh engine, digest digestA, owner
"user123456" and no metadata. -/
theorem anchor_then_verify_matches_witness :
    ∃ receipt s',
      anchor_document 0 (initV2 0) digestA "user123456" none = .ok (receipt, s') ∧
      receipt.blockchain_hash = digestA ∧ receipt.status = "confirmed" ∧
      verify_document s' digestA =
        .ok { verified := true, user_did := some "user123456", timestamp := some 0
              metadata := some none, revoked := some false, error := none } :=
  anchor_then_verify_matches 0 (initV2 0) digestA "user123456" none
    (by decide) (by decide) (fun _ hx => by cases hx) (by decide)

/-- C2. The validator's digest check tests only the length, never that the
characters are hexadecimal, although its own error message reads "must be
64 character hex string": the 64-character non-hex digest digestZ passes
validate_inputs, and a full anchor_document call with it succeeds against
the mock ledger with a confirmed receipt and a subsequently verifiable
record — where the claim (and the code's message) requires an InvalidDigest
rejection.  The owner-length, metadata-size and before-adapter parts of
the claim do hold. -/
theorem nonhex_64_char_digest_accepted :
    digestZ.length = 64 ∧ digestZ.data.all isHexChar = false ∧
    validate_inputs digestZ "user123456" none = .ok () ∧
    anchor_document 0 (initV2 0) digestZ "user123456" none =
      .ok (⟨mockTxHash digestZ "user123456" 0, 0, digestZ, "confirmed", 100000⟩,
           ⟨[(digestZ, ⟨"user123456", none, 0, false⟩)],
            [(mockTxHash digestZ "user123456" 0, ⟨0, 100000, 1⟩)], 1, ⟨1, 0⟩⟩) ∧
    (verify_document_mock
        ⟨[(digestZ, ⟨"user123456", none, 0, false⟩)],
         [(mockTxHash digestZ "user123456" 0, ⟨0, 100000, 1⟩)], 1, ⟨1, 0⟩⟩
        digestZ).verified = true := by
  refine ⟨rfl, by decide, rfl, rfl, rfl⟩

/-! ### Revocation (claims C3, C4) -/

/-- V1 trace: anchor digestA. -/
def c3Trace1 : V1State := stepV1 initV1 (.anchorOp "t1" 0 digestA "owner12345" none)

/-- V1 trace: anchor digestA, then revoke it. -/
def c3Trace2 : V1State := stepV1 c3Trace1 (.revokeOp "t2" 1 digestA "owner12345" "compromised")

/-- V1 trace: anchor digestA, revoke it, anchor it again. -/
def c3Trace3 : V1State := stepV1 c3Trace2 (.anchorOp "t3" 2 digestA "owner12345" none)

/-- A V2 state whose record for digestA is flagged revoked. -/
def v2Revoked : V2State :=
  ⟨[(digestA, ⟨"owner12345", none, 0, true⟩)], [], 0, ⟨0, 0⟩⟩

/-- C3 (counterexample). Revoked is not terminal: on the reachable V1 trace
anchor-revoke-anchor of the same digest, the digest's record goes from
status "revoked" back to status "confirmed" because _anchor_document_mock
overwrites the record; likewise V2's _anchor_document_mock overwrites a
revoked record with revoked = false, so a verify after the re-anchor
reports the digest as verified and not revoked. -/
theorem reanchor_reverts_revoked_record :
    dictGet c3Trace2.mock_documents digestA =
      some ⟨"t1", 0, "revoked", some 1, some "compromised"⟩ ∧
    dictGet c3Trace3.mock_documents digestA =
      some ⟨"t3", 2, "confirmed", none, none⟩ ∧
    (verify_document_mock v2Revoked digestA).revoked = some true ∧
    (verify_document_mock
        (anchor_document_mock 1 v2Revoked digestA "owner12345" none).2
        digestA).revoked = some false := by
  refine ⟨rfl, rfl, rfl, rfl⟩

/-- C3 (amended). Revoked persists under every subsequent engine operation
except a repeat anchor of the same digest: from any V1 state whose record
for a digest has status "revoked", any anchor of a different digest, any
revoke, verify or history call leaves that digest's record with status
"revoked"; only re-anchoring the digest itself resets it to "confirmed". -/
theorem revoked_persists_without_reanchor (s : V1State) (d : String) (doc : DocV1)
    (op : OpV1) (hd : dictGet s.mock_documents d = some doc)
    (hrev : doc.status = "revoked") (hop : isAnchorOf d op = false) :
    ∃ doc', dictGet (stepV1 s op).mock_documents d = some doc' ∧
      doc'.status = "revoked" := by
  cases op with
  | anchorOp txid now h u m =>
      have hne : h ≠ d := by simpa [isAnchorOf] using hop
      refine ⟨doc, ?_, hrev⟩
      simp [stepV1, anchor_document_mock_v1, dictGet_insert_ne _ _ _ _ hne, hd]
  | revokeOp txid now h u r =>
      by_cases hhd : h = d
      · subst hhd
        refine ⟨{ doc with status := "revoked", revoked_at := some now
                           revocation_reason := some r }, ?_, rfl⟩
        simp [stepV1, revoke_document_mock_v1, hd, dictGet_insert_self]
      · cases hdh : dictGet s.mock_documents h with
        | none =>
            exact ⟨doc, by simp [stepV1, revoke_document_mock_v1, hdh, hd], hrev⟩
        | some dh =>
            refine ⟨doc, ?_, hrev⟩
            simp [stepV1, revoke_document_mock_v1, hdh,
              dictGet_insert_ne _ _ _ _ hhd, hd]
  | verifyOp h => exact ⟨doc, hd, hrev⟩
  | historyOp h => exact ⟨doc, hd, hrev⟩

/-- C3 (amended) witnessed: a second revoke of the already revoked digestA
leaves its record revoked. -/
theorem revoked_persists_without_reanchor_witness :
    ∃ doc', dictGet (stepV1 c3Trace2
        (.revokeOp "t4" 3 digestA "owner12345" "again")).mock_documents digestA =
      some doc' ∧ doc'.status = "revoked" :=
  revoked_persists_without_reanchor c3Trace2 digestA
    ⟨"t1", 0, "revoked", some 1, some "compromised"⟩
    (.revokeOp "t4" 3 digestA "owner12345" "again") rfl rfl rfl

/-- C4 (counterexample). Revoking a digest that was never anchored does not
fail with NotAnchored: on a fresh engine, where no record for digestA
exists, revoke_document still returns a "revoked" receipt, and afterwards
there is still no record for the digest. -/
theorem revoke_never_anchored_returns_receipt :
    dictGet initV1.mock_documents digestA = none ∧
    (revoke_document "t1" 5 initV1 digestA "owner12345" "lost key").1 =
      ⟨"t1", 1, none, "revoked", 5⟩ ∧
    dictGet (revoke_document "t1" 5 initV1 digestA "owner12345"
        "lost key").2.mock_documents digestA = none := by
  refine ⟨rfl, rfl, rfl⟩

/-- C4 (amended). revoke_document is total and unconditionally successful:
for every state and input it returns a "revoked" receipt carrying the
transaction id, records a revocation transaction, and updates the digest's
record to status Revoked exactly when such a record exists (a never
anchored digest stays absent — there is no NotAnchored failure path). -/
theorem revoke_unconditional_receipt (txid : String) (now : Nat) (s : V1State)
    (h u r : String) :
    (revoke_document txid now s h u r).1.status = "revoked" ∧
    (revoke_document txid now s h u r).1.transaction_hash = txid ∧
    dictGet (revoke_document txid now s h u r).2.mock_transactions txid =
      some ⟨txid, h, u, now, none, some r, "revoke_document", s.block_counter + 1⟩ ∧
    dictGet (revoke_document txid now s h u r).2.mock_documents h =
      (dictGet s.mock_documents h).map
        (fun doc => { doc with status := "revoked", revoked_at := some now
                               revocation_reason := some r }) := by
  refine ⟨rfl, rfl, ?_, ?_⟩
  · simp [revoke_document, revoke_document_mock_v1, dictGet_insert_self]
  · cases hdh : dictGet s.mock_documents h with
    | none => simp [revoke_document, revoke_document_mock_v1, hdh]
    | some doc => simp [revoke_document, revoke_document_mock_v1, hdh, dictGet_insert_self]

/-! ### Network status (claim C9) and history (claim C10) -/

/-- C9 (counterexample). An internal failure does not always yield a
degraded snapshot: in V1 ethereum mode a failing RPC query (the exception
"connection refused") is swallowed by the fallback to the mock backend and
reported as a healthy "online" snapshot with no error description, not as
an error or offline snapshot. -/
theorem chain_query_failure_reports_online :
    get_network_status_v1 .ethereum (some (.error "connection refused")) none initV1 =
      ⟨"online", "mock", none, some 0⟩ ∧
    ("online" : String) ≠ "error" ∧ ("online" : String) ≠ "offline" := by
  refine ⟨rfl, by decide, by decide⟩

/-- C9 (amended). Neither status implementation raises to the caller: V2's
get_network_status always returns a snapshot (its re-raising handler is
dead because every branch catches its own failures), and a failing V2
backend query yields a degraded snapshot with status "error" and the error
description; V1's get_network_status is likewise total, but a failing
chain query there falls back to the mock backend's healthy "online"
snapshot with the error dropped. -/
theorem status_never_raises :
    (∀ (bt : BlockchainTypeV2) (ethQ polyQ : Except String Nat) (s : V2State),
      ∃ snap, get_network_status_v2 bt ethQ polyQ s = .ok snap) ∧
    (∀ (n e : String), get_chain_status_v2 n (.error e) = ⟨"error", n, some e, none⟩) ∧
    (∀ (e : String) (polyQ : Option (Except String Nat)) (s : V1State),
      get_network_status_v1 .ethereum (some (.error e)) polyQ s =
        get_network_status_mock_v1 s) := by
  refine ⟨?_, fun n e => rfl, fun e polyQ s => rfl⟩
  intro bt ethQ polyQ s
  cases bt <;> exact ⟨_, rfl⟩

/-- C10 (counterexample). A never-anchored digest need not have an empty
history: on a fresh engine (no transactions at all, no record for
digestA), a single revoke of the never-anchored digestA records a
revocation transaction, and get_document_history then returns that
one-event list, not the empty list. -/
theorem history_of_never_anchored_digest_nonempty :
    initV1.mock_transactions = [] ∧
    dictGet initV1.mock_documents digestA = none ∧
    get_document_history
        (stepV1 initV1 (.revokeOp "t1" 4 digestA "owner12345" "oops")) digestA =
      [⟨"t1", "revoke_document", 4, 1, "owner12345", none⟩] ∧
    ([(⟨"t1", "revoke_document", 4, 1, "owner12345", none⟩ : HistEntryV1)] : List HistEntryV1)
      ≠ [] := by
  refine ⟨rfl, rfl, rfl, by decide⟩

/-- C10 (amended). get_document_history is total, returning a plain list in
every case, and yields the empty list exactly for digests with no recorded
transaction at all — no anchor and also no revoke ever mentioned the
digest; the facade's exception guard (a dead arm here) additionally maps
any escaped internal failure to the empty list. -/
theorem history_empty_without_transactions (s : V1State) (h : String)
    (hno : ∀ p ∈ s.mock_transactions, p.2.file_hash ≠ h) :
    get_document_history s h = [] := by
  have hf : s.mock_transactions.filter (fun p => p.2.file_hash = h) = [] := by
    rw [List.filter_eq_nil_iff]
    intro p hp
    simpa using hno p hp
  simp [get_document_history, get_document_history_mock, hf, sortByTimestamp]

/-- C10 (amended) witnessed: after anchoring digestA, the history of the
untouched digestZ is empty. -/
theorem history_empty_without_transactions_witness :
    get_document_history (stepV1 initV1 (.anchorOp "t1" 0 digestA "owner12345" none))
      digestZ = [] :=
  history_empty_without_transactions _ digestZ (by decide)

end IntelliTrust
